import Mathlib

/-!
# task-users: likes, matches and recommendations

A shallow embedding of `main.go`: the GORM models, the handlers `likeUser`,
`createMatch` and `getRecommendedUsers`, and the distance expression of the
recommendation query.

Modelling conventions.

* The global handle `db` becomes an explicit value of type `DB F` that every
  handler receives and (for `likeUser`) returns.  A table is the list of its rows
  in insertion order.
* `F` is the numeric domain of the coordinates and of distances (`float64` in the
  Go structs, `DOUBLE` in the storage engine).  The handlers only compare such
  values, so the model is generic in `F`; the value that the storage engine
  computes for the distance column is a parameter of `getRecommendedUsers`, with
  `none` for SQL `NULL`.  The same expression read over the real numbers is
  `distanceExpr` below.
* `db.Create(&like)` inserts under the primary key of the body when it has one and under
  the next auto-increment value otherwise; the storage engine refuses the row when one
  of its two foreign keys references no stored user or when the primary key is in use.
  The handler never looks at the outcome, so a refused insert leaves the table as it
  was and the handler goes on.
* `time.Now()` is an argument of the handler.
* `c.ShouldBindJSON` is the already decoded body: `Except.ok v` or
  `Except.error msg`.
* The path parameter `user_id` is a number.  SQL `=` and `!=` on the columns of `users`
  are equality and inequality of the stored values, `BETWEEN` is the closed interval.
-/

namespace TaskUsers

/-! ## Data model -/

/-- Row of table `users` (`type User struct`), relationship slices left out. -/
structure User (F : Type) where
  ID : Int
  Name : String
  Gender : String
  Latitude : F
  Longitude : F
  DietType : String
  Age : Int

/-- Row of table `likes` (`type Like struct`). -/
structure Like where
  ID : Int
  UserID : Int
  LikedUserID : Int
  CreatedAt : Nat
deriving DecidableEq, Repr

/-- Row of table `matches` (`type Match struct`). -/
structure Match where
  ID : Int
  UserID : Int
  MatchedUserID : Int
  CreatedAt : Nat
deriving DecidableEq, Repr

/-- Age bounds of a preference (`type AgeRange struct`). -/
structure AgeRange where
  Min : Int
  Max : Int
deriving DecidableEq, Repr

/-- Request body of the recommendation endpoint (`type Preferences struct`). -/
structure Preferences (F : Type) where
  LookingForGender : String
  LookingForDietType : String
  AgeRange : AgeRange
  MaxDistance : F

/-- Contents of the database behind the global handle `db`. -/
structure DB (F : Type) where
  userRows : List (User F)
  likeRows : List Like
  matchRows : List Match
  likesAutoInc : Int
  matchesAutoInc : Int

/-! ## Storage operations used by the handlers -/

/-- A row of `users` has this primary key. -/
def DB.hasUser {F : Type} (db : DB F) (userID : Int) : Bool :=
  db.userRows.any (fun u => u.ID == userID)

/-- Primary key under which `db.Create(&like)` sends the row: the `id` of the body when
it is not zero, the next auto-increment value of `likes` otherwise. -/
def DB.likeKey {F : Type} (db : DB F) (like : Like) : Int :=
  if like.ID = 0 then db.likesAutoInc else like.ID

/-- The storage engine accepts the row: `user_id` and `liked_user_id` reference stored
users (foreign keys of `Like.User` and `Like.LikedUser`) and the primary key is free. -/
def DB.likeInsertable {F : Type} (db : DB F) (like : Like) : Bool :=
  db.hasUser like.UserID && db.hasUser like.LikedUserID &&
    !(db.likeRows.any (fun l => l.ID == db.likeKey like))

/-- The call `db.Create(&like)`, whose error the handler ignores: an accepted row is
appended under its primary key and the auto-increment counter moves past that key; a
refused row leaves the database as it was. -/
def DB.createLike {F : Type} (db : DB F) (like : Like) : DB F :=
  if db.likeInsertable like then
    { db with
      likeRows := db.likeRows ++ [{ like with ID := db.likeKey like }]
      likesAutoInc := max db.likesAutoInc (db.likeKey like + 1) }
  else db

/-- The call `db.Where("user_id = ? AND liked_user_id = ?", userID, likedUserID).First(..)`:
the first row of `likes` with these two columns, if any. -/
def DB.firstLike {F : Type} (db : DB F) (userID likedUserID : Int) : Option Like :=
  db.likeRows.find? (fun l => l.UserID == userID && l.LikedUserID == likedUserID)

/-! ## Interest and match protocol -/

/-- Source function `createMatch`: unconditionally inserts a `Match` row under the next
auto-increment value of `matches`.  `likeUser` reaches it only when a reciprocal like is
stored, and the foreign keys of `likes` let a like be stored only between stored users,
which are the users that the foreign keys of `matches` ask for. -/
def createMatch {F : Type} (db : DB F) (userID likedUserID : Int) (now : Nat) : DB F :=
  { db with
    matchRows := db.matchRows ++
      [{ ID := db.matchesAutoInc, UserID := userID, MatchedUserID := likedUserID,
         CreatedAt := now }]
    matchesAutoInc := db.matchesAutoInc + 1 }

/-- JSON answers of `likeUser`. -/
inductive LikeResponse where
  /-- Answer 200 with status "match found" and the pair under key "match". -/
  | matchFound (user_id matched_user_id : Int)
  /-- Answer 200 with status "like registered". -/
  | likeRegistered
  /-- Answer 400 with the binding error. -/
  | badRequest (error : String)
deriving DecidableEq, Repr

/-- HTTP status code of an answer of `likeUser`. -/
def LikeResponse.code : LikeResponse → Nat
  | .matchFound _ _ => 200
  | .likeRegistered => 200
  | .badRequest _ => 400

/-- The "status" field of an answer of `likeUser`. -/
def LikeResponse.status : LikeResponse → Option String
  | .matchFound _ _ => some "match found"
  | .likeRegistered => some "like registered"
  | .badRequest _ => none

/-- Source function `likeUser`.  `body` is the outcome of `c.ShouldBindJSON(&like)`,
`now` the clock read in `likeUser`, `matchNow` the clock read in `createMatch`. -/
def likeUser {F : Type} (db : DB F) (body : Except String Like) (now matchNow : Nat) :
    LikeResponse × DB F :=
  match body with
  | .ok bound =>
    let like : Like := { bound with CreatedAt := now }
    let db1 := db.createLike like
    match db1.firstLike like.LikedUserID like.UserID with
    | some _ =>
      (.matchFound like.UserID like.LikedUserID,
        createMatch db1 like.UserID like.LikedUserID matchNow)
    | none => (.likeRegistered, db1)
  | .error err => (.badRequest err, db)

/-- One well-formed call of `likeUser`: the decoded body and the two clock readings. -/
structure LikeCall where
  like : Like
  now : Nat
  matchNow : Nat
deriving DecidableEq, Repr

/-- Sequential execution of well-formed `likeUser` calls, oldest first. -/
def runLikes {F : Type} (db : DB F) : List LikeCall → DB F
  | [] => db
  | c :: cs => runLikes (likeUser db (.ok c.like) c.now c.matchNow).2 cs

/-- The store holds a row `Like(a → b)`. -/
def hasLike {F : Type} (db : DB F) (a b : Int) : Prop :=
  ∃ l ∈ db.likeRows, l.UserID = a ∧ l.LikedUserID = b

/-- Number of rows `Like(a → b)` in the store. -/
def likeCount {F : Type} (db : DB F) (a b : Int) : Nat :=
  db.likeRows.countP (fun l => l.UserID == a && l.LikedUserID == b)

/-- Number of `Match` rows whose endpoints are the unordered pair `{a, b}`. -/
def matchCount {F : Type} (db : DB F) (a b : Int) : Nat :=
  db.matchRows.countP (fun m =>
    (m.UserID == a && m.MatchedUserID == b) || (m.UserID == b && m.MatchedUserID == a))

instance {F : Type} (db : DB F) (a b : Int) : Decidable (hasLike db a b) := by
  unfold hasLike; infer_instance

/-- Number of calls in the sequence that submit the like `a → b`. -/
def callCount (calls : List LikeCall) (a b : Int) : Nat :=
  calls.countP (fun c => c.like.UserID == a && c.like.LikedUserID == b)

/-- Invariant of the sequential protocol after the calls `done`.  For every pair of
user ids: no more `Like(a → b)` rows than calls that submitted them; at least one `Match`
row on the pair once both directions are stored; between two different users fewer
`Match` rows than calls between them.  For every user id: at most as many `Match` rows
of the user with itself as self-like calls. -/
def MatchInv {F : Type} (db : DB F) (done : List LikeCall) : Prop :=
  (∀ a b : Int,
    likeCount db a b ≤ callCount done a b ∧
    (0 < likeCount db a b → 0 < likeCount db b a → 1 ≤ matchCount db a b) ∧
    (a ≠ b → matchCount db a b ≤ callCount done a b + callCount done b a - 1)) ∧
  ∀ a : Int, matchCount db a a ≤ callCount done a a

/-! ## Recommendation engine -/

/-- JSON answers of `getRecommendedUsers`. -/
inductive RecommendResponse (F : Type) where
  /-- Answer with an HTTP error code and the text under key "error". -/
  | error (code : Nat) (message : String)
  /-- Answer 200 with the scanned rows. -/
  | ok (recommendations : List (User F))

/-- The call `db.First(&requestingUser, userID)`: the row of `users` with this primary key. -/
def DB.firstUser {F : Type} (db : DB F) (userID : Int) : Option (User F) :=
  db.userRows.find? (fun u => u.ID == userID)

/-- The call `db.Debug().Raw(query, args...).Scan(&recommendations)` for the query text
built by `getRecommendedUsers`: `whereClauses` are the conjuncts after `WHERE`,
`distance lat1 lon1 latitude longitude` is the value of the column `distance` for a row
(`none` for `NULL`), and `HAVING distance <= maxDistance` keeps the rows where the
comparison is true.  `queryFails` says that the storage engine reports an error. -/
def DB.rawScan {F : Type} [LinearOrder F] (distance : F → F → F → F → Option F)
    (db : DB F) (lat1 lon1 : F) (whereClauses : List (User F → Bool)) (maxDistance : F)
    (queryFails : Bool) : Except String (List (User F)) :=
  if queryFails then .error "query failed"
  else
    .ok ((db.userRows.filter (fun u => whereClauses.all (fun c => c u))).filter
      (fun u =>
        match distance lat1 lon1 u.Latitude u.Longitude with
        | some d => decide (d ≤ maxDistance)
        | none => false))

/-- Lines 161 to 176 of `getRecommendedUsers`: the distance filter with its sentinel,
the execution of the query and the answer.  Both ways out of the age-range block
continue here. -/
def distanceFilterAndScan {F : Type} [LinearOrderedRing F]
    (distance : F → F → F → F → Option F) (db : DB F) (requestingUser : User F)
    (preferences : Preferences F) (whereClauses : List (User F → Bool))
    (queryFails : Bool) : RecommendResponse F :=
  let maxDistance : F :=
    if preferences.MaxDistance ≤ 0 then 99999 else preferences.MaxDistance
  match db.rawScan distance requestingUser.Latitude requestingUser.Longitude whereClauses
      maxDistance queryFails with
  | .error _ => .error 500 "Error retrieving recommendations"
  | .ok recommendations => .ok recommendations

/-- Source function `getRecommendedUsers`.  `userID` is the path parameter, `body` the
outcome of `c.ShouldBindJSON(&preferences)`. -/
def getRecommendedUsers {F : Type} [LinearOrderedRing F]
    (distance : F → F → F → F → Option F) (db : DB F) (userID : Int)
    (body : Except String (Preferences F)) (queryFails : Bool) : RecommendResponse F :=
  match db.firstUser userID with
  | none => .error 404 "User not found"
  | some requestingUser =>
    match body with
    | .error _ => .error 400 "Invalid preferences"
    | .ok preferences =>
      let q0 : List (User F → Bool) := [fun u => u.ID != requestingUser.ID]
      let q1 :=
        if preferences.LookingForGender != "" then
          q0 ++ [fun u => u.Gender == preferences.LookingForGender]
        else q0
      let q2 :=
        if preferences.LookingForDietType != "" then
          q1 ++ [fun u => u.DietType == preferences.LookingForDietType]
        else q1
      if preferences.AgeRange.Min > 0 && preferences.AgeRange.Max > 0 then
        if preferences.AgeRange.Min > preferences.AgeRange.Max then
          .error 400 "Invalid age range"
        else
          distanceFilterAndScan distance db requestingUser preferences
            (q2 ++ [fun u =>
              decide (preferences.AgeRange.Min ≤ u.Age) &&
                decide (u.Age ≤ preferences.AgeRange.Max)])
            queryFails
      else
        distanceFilterAndScan distance db requestingUser preferences q2 queryFails

/-- The effective max distance: the sentinel replaces an absent or non-positive value. -/
def effectiveMaxDistance {F : Type} [LinearOrderedRing F] (preferences : Preferences F) : F :=
  if preferences.MaxDistance ≤ 0 then 99999 else preferences.MaxDistance

/-! ## The distance expression over the real numbers -/

/-- SQL function `radians`. -/
noncomputable def radians (x : ℝ) : ℝ := x * Real.pi / 180

/-- The argument of `acos` in the distance column. -/
noncomputable def acosArg (lat1 lon1 latitude longitude : ℝ) : ℝ :=
  Real.cos (radians lat1) * Real.cos (radians latitude) *
      Real.cos (radians longitude - radians lon1) +
    Real.sin (radians lat1) * Real.sin (radians latitude)

/-- The distance column `3958.8 * acos(..)` as a real number. -/
noncomputable def Distance (lat1 lon1 latitude longitude : ℝ) : ℝ :=
  3958.8 * Real.arccos (acosArg lat1 lon1 latitude longitude)

/-- SQL function `acos`: `NULL` outside of the interval from -1 to 1. -/
noncomputable def sqlAcos (x : ℝ) : Option ℝ :=
  if -1 ≤ x ∧ x ≤ 1 then some (Real.arccos x) else none

/-- The distance column as the storage engine evaluates it, read over the real numbers. -/
noncomputable def distanceExpr (lat1 lon1 latitude longitude : ℝ) : Option ℝ :=
  (sqlAcos (acosArg lat1 lon1 latitude longitude)).map (fun a => 3958.8 * a)

/-! ## The selection condition in the words of the specification -/

/-- Gender conjunct: `gender = LookingForGender`, only if that field is non-empty. -/
def genderOk {F : Type} (p : Preferences F) (u : User F) : Prop :=
  p.LookingForGender = "" ∨ u.Gender = p.LookingForGender

/-- Diet conjunct: `diet_type = LookingForDietType`, only if that field is non-empty. -/
def dietOk {F : Type} (p : Preferences F) (u : User F) : Prop :=
  p.LookingForDietType = "" ∨ u.DietType = p.LookingForDietType

/-- Age conjunct: `age BETWEEN Min AND Max`, only if both bounds are positive. -/
def ageOk {F : Type} (p : Preferences F) (u : User F) : Prop :=
  ¬ (0 < p.AgeRange.Min ∧ 0 < p.AgeRange.Max) ∨
    (p.AgeRange.Min ≤ u.Age ∧ u.Age ≤ p.AgeRange.Max)

/-- Distance conjunct: the computed distance from the requester `r` to the candidate `u`
is a value that is at most the effective max distance. -/
def distanceOk {F : Type} [LinearOrderedRing F] (distance : F → F → F → F → Option F)
    (r : User F) (p : Preferences F) (u : User F) : Prop :=
  ∃ d, distance r.Latitude r.Longitude u.Latitude u.Longitude = some d ∧
    d ≤ effectiveMaxDistance p

/-- The predicate of the recommendation over the other users, as the specification
words it: not the requester, and the four conjuncts. -/
def Selected {F : Type} [LinearOrderedRing F] (distance : F → F → F → F → Option F)
    (r : User F) (p : Preferences F) (u : User F) : Prop :=
  u.ID ≠ r.ID ∧ genderOk p u ∧ dietOk p u ∧ ageOk p u ∧ distanceOk distance r p u

/-! ## The seeded database -/

/-- First row inserted by `seedUsers`. -/
noncomputable def alice : User ℝ :=
  { ID := 1, Name := "Alice", Gender := "female", Latitude := 40.7128, Longitude := -74.0060,
    DietType := "vegan", Age := 25 }

/-- Second row inserted by `seedUsers`. -/
noncomputable def bob : User ℝ :=
  { ID := 2, Name := "Bob", Gender := "male", Latitude := 40.73061, Longitude := -73.935242,
    DietType := "vegan", Age := 30 }

/-- Third row inserted by `seedUsers`. -/
noncomputable def charlie : User ℝ :=
  { ID := 3, Name := "Charlie", Gender := "other", Latitude := 41.033986,
    Longitude := -73.762909, DietType := "vegan", Age := 22 }

/-- Fourth row inserted by `seedUsers`. -/
noncomputable def diana : User ℝ :=
  { ID := 4, Name := "Diana", Gender := "female", Latitude := 40.8501, Longitude := -73.8662,
    DietType := "vegan", Age := 28 }

/-- Fifth row inserted by `seedUsers`. -/
noncomputable def ethan : User ℝ :=
  { ID := 5, Name := "Ethan", Gender := "male", Latitude := 35.6895, Longitude := 139.6917,
    DietType := "omnivore", Age := 35 }

/-- Rows inserted by `seedUsers` into an empty table, with their primary keys. -/
noncomputable def seedUsers : List (User ℝ) := [alice, bob, charlie, diana, ethan]

/-- The database right after `seedUsers`: five users, no likes, no matches. -/
noncomputable def seedDB : DB ℝ :=
  { userRows := seedUsers, likeRows := [], matchRows := [], likesAutoInc := 1,
    matchesAutoInc := 1 }

/-! ## Lemmas on the interest and match protocol -/

lemma firstLike_isSome_iff {F : Type} (db : DB F) (a b : Int) :
    (db.firstLike a b).isSome = true ↔ hasLike db a b := by
  unfold DB.firstLike hasLike
  rw [List.find?_isSome]
  constructor
  · rintro ⟨l, hl, hp⟩
    simp only [Bool.and_eq_true, beq_iff_eq] at hp
    exact ⟨l, hl, hp⟩
  · rintro ⟨l, hl, hp⟩
    exact ⟨l, hl, by simpa using hp⟩

lemma firstLike_eq_none_iff {F : Type} (db : DB F) (a b : Int) :
    db.firstLike a b = none ↔ ¬ hasLike db a b := by
  rw [← firstLike_isSome_iff]
  cases db.firstLike a b <;> simp

lemma likeUser_ok {F : Type} (db : DB F) (like : Like) (now matchNow : Nat) :
    likeUser db (.ok like) now matchNow =
      if hasLike (db.createLike { like with CreatedAt := now }) like.LikedUserID like.UserID then
        (.matchFound like.UserID like.LikedUserID,
          createMatch (db.createLike { like with CreatedAt := now }) like.UserID
            like.LikedUserID matchNow)
      else (.likeRegistered, db.createLike { like with CreatedAt := now }) := by
  unfold likeUser
  simp only
  cases hq : (db.createLike { like with CreatedAt := now }).firstLike like.LikedUserID
      like.UserID with
  | none =>
    rw [if_neg ((firstLike_eq_none_iff _ _ _).1 hq)]
  | some r =>
    have hsome : ((db.createLike { like with CreatedAt := now }).firstLike like.LikedUserID
        like.UserID).isSome = true := by rw [hq]; rfl
    rw [if_pos ((firstLike_isSome_iff _ _ _).1 hsome)]

lemma hasLike_iff_likeCount_pos {F : Type} (db : DB F) (a b : Int) :
    hasLike db a b ↔ 0 < likeCount db a b := by
  unfold hasLike likeCount
  rw [List.countP_pos_iff]
  constructor
  · rintro ⟨l, hl, hp⟩
    exact ⟨l, hl, by simpa using hp⟩
  · rintro ⟨l, hl, hp⟩
    simp only [Bool.and_eq_true, beq_iff_eq] at hp
    exact ⟨l, hl, hp⟩

lemma likeCount_createLike {F : Type} (db : DB F) (like : Like) (a b : Int) :
    likeCount (db.createLike like) a b =
      likeCount db a b +
        (if db.likeInsertable like = true ∧ like.UserID = a ∧ like.LikedUserID = b then 1
          else 0) := by
  unfold DB.createLike
  by_cases hins : db.likeInsertable like = true
  · rw [if_pos hins]
    unfold likeCount
    simp only [List.countP_append, List.countP_cons, List.countP_nil, Bool.and_eq_true,
      beq_iff_eq, zero_add, hins, true_and]
  · rw [if_neg hins, if_neg (fun hh => hins hh.1)]
    rfl

lemma matchCount_createLike {F : Type} (db : DB F) (like : Like) (a b : Int) :
    matchCount (db.createLike like) a b = matchCount db a b := by
  unfold DB.createLike
  split <;> rfl

lemma matchRows_createLike {F : Type} (db : DB F) (like : Like) :
    (db.createLike like).matchRows = db.matchRows := by
  unfold DB.createLike
  split <;> rfl

lemma matchesAutoInc_createLike {F : Type} (db : DB F) (like : Like) :
    (db.createLike like).matchesAutoInc = db.matchesAutoInc := by
  unfold DB.createLike
  split <;> rfl

lemma likeCount_createMatch {F : Type} (db : DB F) (u v : Int) (t : Nat) (a b : Int) :
    likeCount (createMatch db u v t) a b = likeCount db a b := rfl

lemma matchCount_createMatch {F : Type} (db : DB F) (u v : Int) (t : Nat) (a b : Int) :
    matchCount (createMatch db u v t) a b =
      matchCount db a b + (if (u = a ∧ v = b) ∨ (u = b ∧ v = a) then 1 else 0) := by
  unfold matchCount createMatch
  simp only [List.countP_append, List.countP_cons, List.countP_nil, Bool.or_eq_true,
    Bool.and_eq_true, beq_iff_eq, zero_add]

/-- How one well-formed call changes the number of `Like(a → b)` rows. -/
lemma likeCount_likeUser {F : Type} (db : DB F) (like : Like) (now matchNow : Nat)
    (a b : Int) :
    likeCount (likeUser db (.ok like) now matchNow).2 a b =
      likeCount db a b +
        (if db.likeInsertable like = true ∧ like.UserID = a ∧ like.LikedUserID = b then 1
          else 0) := by
  have hc := likeCount_createLike db { like with CreatedAt := now } a b
  have hi : db.likeInsertable { like with CreatedAt := now } = db.likeInsertable like := rfl
  rw [hi] at hc
  rw [likeUser_ok]
  split_ifs <;> simp_all [likeCount_createMatch]

/-- How one well-formed call changes the number of `Match` rows on `{a, b}`. -/
lemma matchCount_likeUser {F : Type} (db : DB F) (like : Like) (now matchNow : Nat)
    (a b : Int) :
    matchCount (likeUser db (.ok like) now matchNow).2 a b =
      matchCount db a b +
        (if (0 < likeCount db like.LikedUserID like.UserID ∨
              (db.likeInsertable like = true ∧ like.UserID = like.LikedUserID)) ∧
            ((like.UserID = a ∧ like.LikedUserID = b) ∨
              (like.UserID = b ∧ like.LikedUserID = a)) then 1 else 0) := by
  rw [likeUser_ok]
  have hi : db.likeInsertable { like with CreatedAt := now } = db.likeInsertable like := rfl
  have hrec : hasLike (db.createLike { like with CreatedAt := now }) like.LikedUserID
      like.UserID ↔
      (0 < likeCount db like.LikedUserID like.UserID ∨
        (db.likeInsertable like = true ∧ like.UserID = like.LikedUserID)) := by
    rw [hasLike_iff_likeCount_pos, likeCount_createLike, hi]
    by_cases hins : db.likeInsertable like = true
    · by_cases h : like.UserID = like.LikedUserID
      · simp [h, hins]
      · have h2 : ¬ (like.UserID = like.LikedUserID ∧ like.LikedUserID = like.UserID) :=
          fun hh => h hh.1
        simp [h, h2]
    · simp [hins]
  by_cases hr : hasLike (db.createLike { like with CreatedAt := now }) like.LikedUserID
      like.UserID
  · rw [if_pos hr]
    simp only [matchCount_createMatch, matchCount_createLike]
    by_cases hp : (like.UserID = a ∧ like.LikedUserID = b) ∨
        (like.UserID = b ∧ like.LikedUserID = a)
    · rw [if_pos hp, if_pos ⟨hrec.1 hr, hp⟩]
    · rw [if_neg hp, if_neg (fun hh => hp hh.2)]
  · rw [if_neg hr]
    have hn : ¬ (0 < likeCount db like.LikedUserID like.UserID ∨
        (db.likeInsertable like = true ∧ like.UserID = like.LikedUserID)) :=
      fun hh => hr (hrec.2 hh)
    rw [if_neg (fun hh => hn hh.1), matchCount_createLike]
    rfl

lemma callCount_snoc (done : List LikeCall) (c : LikeCall) (a b : Int) :
    callCount (done ++ [c]) a b =
      callCount done a b + (if c.like.UserID = a ∧ c.like.LikedUserID = b then 1 else 0) := by
  unfold callCount
  simp only [List.countP_append, List.countP_cons, List.countP_nil, Bool.and_eq_true,
    beq_iff_eq, zero_add]

lemma matchCount_comm {F : Type} (db : DB F) (a b : Int) :
    matchCount db a b = matchCount db b a := by
  unfold matchCount
  congr 1
  funext m
  exact Bool.or_comm _ _

lemma matchInv_likeUser {F : Type} (db : DB F) (done : List LikeCall) (c : LikeCall)
    (h : MatchInv db done) :
    MatchInv (likeUser db (.ok c.like) c.now c.matchNow).2 (done ++ [c]) := by
  obtain ⟨hpair, hself⟩ := h
  constructor
  · intro a b
    obtain ⟨h1, h2, h3⟩ := hpair a b
    obtain ⟨g1, g2, g3⟩ := hpair b a
    have hs := hself a
    have msym := matchCount_comm db b a
    simp only [likeCount_likeUser, matchCount_likeUser, callCount_snoc]
    generalize db.likeInsertable c.like = ins
    generalize c.like.UserID = u
    generalize c.like.LikedUserID = v
    by_cases cA : u = a ∧ v = b
    · obtain ⟨rfl, rfl⟩ := cA
      by_cases huv : u = v
      · subst huv
        by_cases hp : 0 < likeCount db u u <;> cases ins <;>
          simp only [hp, Bool.false_eq_true, eq_self_iff_true, and_self, and_true, true_and, and_false, false_and, or_self, or_true, true_or, or_false, false_or, if_true, if_false, add_zero, ne_eq, not_true_eq_false, not_false_eq_true, false_imp_iff, true_imp_iff] <;>
          (try constructorm* _ ∧ _) <;> intros <;> first | trivial | omega
      · have hvu : ¬ v = u := fun hh => huv hh.symm
        have g3b := g3 hvu
        have h3b := h3 huv
        by_cases hp : 0 < likeCount db v u <;> cases ins <;>
          simp only [hp, huv, hvu, Bool.false_eq_true, eq_self_iff_true, and_self, and_true, true_and, and_false, false_and, or_self, or_true, true_or, or_false, false_or, if_true, if_false, add_zero, ne_eq, not_true_eq_false, not_false_eq_true, false_imp_iff, true_imp_iff] <;>
          (try constructorm* _ ∧ _) <;> intros <;> first | trivial | omega
    · by_cases cB : u = b ∧ v = a
      · obtain ⟨rfl, rfl⟩ := cB
        have huv : ¬ u = v := fun hh => cA ⟨hh, hh.symm⟩
        have hvu : ¬ v = u := fun hh => huv hh.symm
        have h3b := h3 hvu
        have g3b := g3 huv
        by_cases hp : 0 < likeCount db v u <;> cases ins <;>
          simp only [hp, huv, hvu, Bool.false_eq_true, eq_self_iff_true, and_self, and_true, true_and, and_false, false_and, or_self, or_true, true_or, or_false, false_or, if_true, if_false, add_zero, ne_eq, not_true_eq_false, not_false_eq_true, false_imp_iff, true_imp_iff] <;>
          (try constructorm* _ ∧ _) <;> intros <;> first | trivial | omega
      · simp only [cA, cB, Bool.false_eq_true, eq_self_iff_true, and_self, and_true, true_and, and_false, false_and, or_self, or_true, true_or, or_false, false_or, if_true, if_false, add_zero, ne_eq, not_true_eq_false, not_false_eq_true, false_imp_iff, true_imp_iff]
        exact ⟨h1, h2, h3⟩
  · intro a
    have hs := hself a
    have hl := (hpair a a).1
    simp only [likeCount_likeUser, matchCount_likeUser, callCount_snoc]
    generalize db.likeInsertable c.like = ins
    generalize c.like.UserID = u
    generalize c.like.LikedUserID = v
    by_cases cA : u = a ∧ v = a
    · obtain ⟨rfl, rfl⟩ := cA
      simp only [Bool.false_eq_true, eq_self_iff_true, and_self, and_true, true_and, and_false, false_and, or_self, or_true, true_or, or_false, false_or, if_true, if_false, add_zero, ne_eq, not_true_eq_false, not_false_eq_true, false_imp_iff, true_imp_iff]
      split_ifs <;> omega
    · simp only [cA, Bool.false_eq_true, eq_self_iff_true, and_self, and_true, true_and, and_false, false_and, or_self, or_true, true_or, or_false, false_or, if_true, if_false, add_zero, ne_eq, not_true_eq_false, not_false_eq_true, false_imp_iff, true_imp_iff]
      exact hs

lemma matchInv_runLikes {F : Type} (calls : List LikeCall) :
    ∀ (db : DB F) (done : List LikeCall),
      MatchInv db done → MatchInv (runLikes db calls) (done ++ calls) := by
  induction calls with
  | nil => intro db done h; simpa [runLikes] using h
  | cons c cs ih =>
    intro db done h
    have hstep := ih _ _ (matchInv_likeUser db done c h)
    rw [List.append_assoc] at hstep
    exact hstep

lemma matchInv_of_empty {F : Type} (db : DB F) (hl : db.likeRows = [])
    (hm : db.matchRows = []) : MatchInv db [] := by
  constructor
  · intro a b
    simp [likeCount, matchCount, callCount, hl, hm]
  · intro a
    simp [matchCount, callCount, hm]

lemma likeInsertable_iff {F : Type} (db : DB F) (like : Like) :
    db.likeInsertable like = true ↔
      (∃ u ∈ db.userRows, u.ID = like.UserID) ∧ (∃ u ∈ db.userRows, u.ID = like.LikedUserID) ∧
        ∀ l ∈ db.likeRows, l.ID ≠ db.likeKey like := by
  unfold DB.likeInsertable DB.hasUser
  simp [and_assoc]

/-! ## Theorems on the interest and match protocol -/

/-- C1, as the code has it: starting from a store with no likes and no matches, after
every finite sequence of well-formed `likeUser` calls, if the store holds both
`Like(A → B)` and `Like(B → A)` then it holds at least one `Match` row on `{A, B}`;
for `A ≠ B` it holds fewer such rows than there were calls between `A` and `B`, for
`A = B` at most as many as there were self-like calls; so it holds exactly one when each
of the two directions has been submitted once. -/
theorem mutual_like_match_rows {F : Type} (db0 : DB F) (calls : List LikeCall) (A B : Int)
    (hl : db0.likeRows = []) (hm : db0.matchRows = [])
    (hAB : hasLike (runLikes db0 calls) A B) (hBA : hasLike (runLikes db0 calls) B A) :
    1 ≤ matchCount (runLikes db0 calls) A B ∧
    (A ≠ B → matchCount (runLikes db0 calls) A B + 1 ≤
      callCount calls A B + callCount calls B A) ∧
    (A = B → matchCount (runLikes db0 calls) A B ≤ callCount calls A B) ∧
    (callCount calls A B = 1 → callCount calls B A = 1 →
      matchCount (runLikes db0 calls) A B = 1) := by
  have hinv := matchInv_runLikes calls db0 [] (matchInv_of_empty db0 hl hm)
  rw [List.nil_append] at hinv
  obtain ⟨h1, h2, h3⟩ := hinv.1 A B
  have g1 := (hinv.1 B A).1
  have hself := hinv.2 A
  rw [hasLike_iff_likeCount_pos] at hAB hBA
  have hpos := h2 hAB hBA
  by_cases hne : A = B
  · subst hne
    exact ⟨hpos, fun h => absurd rfl h, fun _ => hself, fun _ _ => by omega⟩
  · have h3b := h3 hne
    exact ⟨hpos, fun _ => by omega, fun h => absurd h hne, fun _ _ => by omega⟩

/-- Witness of C1: Alice likes Bob, then Bob likes Alice, on the seeded database. -/
theorem mutual_like_match_rows_witness :
    hasLike (runLikes seedDB [⟨⟨0, 1, 2, 0⟩, 100, 101⟩, ⟨⟨0, 2, 1, 0⟩, 200, 201⟩]) 1 2 ∧
    hasLike (runLikes seedDB [⟨⟨0, 1, 2, 0⟩, 100, 101⟩, ⟨⟨0, 2, 1, 0⟩, 200, 201⟩]) 2 1 ∧
    1 ≤ matchCount (runLikes seedDB [⟨⟨0, 1, 2, 0⟩, 100, 101⟩, ⟨⟨0, 2, 1, 0⟩, 200, 201⟩]) 1 2 :=
  ⟨by decide, by decide,
    (mutual_like_match_rows seedDB [⟨⟨0, 1, 2, 0⟩, 100, 101⟩, ⟨⟨0, 2, 1, 0⟩, 200, 201⟩] 1 2
      rfl rfl (by decide) (by decide)).1⟩

/-- C1 as stated fails: from the seeded database (no likes, no matches) the calls
Alice likes Bob, Bob likes Alice, Alice likes Bob again leave both directions liked
and two `Match` rows on the pair, one per call that saw a reciprocal like. -/
theorem mutual_like_two_match_rows :
    seedDB.likeRows = [] ∧ seedDB.matchRows = [] ∧
    hasLike (runLikes seedDB
      [⟨⟨0, 1, 2, 0⟩, 100, 101⟩, ⟨⟨0, 2, 1, 0⟩, 200, 201⟩, ⟨⟨0, 1, 2, 0⟩, 300, 301⟩]) 1 2 ∧
    hasLike (runLikes seedDB
      [⟨⟨0, 1, 2, 0⟩, 100, 101⟩, ⟨⟨0, 2, 1, 0⟩, 200, 201⟩, ⟨⟨0, 1, 2, 0⟩, 300, 301⟩]) 2 1 ∧
    (runLikes seedDB
      [⟨⟨0, 1, 2, 0⟩, 100, 101⟩, ⟨⟨0, 2, 1, 0⟩, 200, 201⟩, ⟨⟨0, 1, 2, 0⟩, 300, 301⟩]).matchRows =
      [⟨1, 2, 1, 201⟩, ⟨2, 1, 2, 301⟩] ∧
    matchCount (runLikes seedDB
      [⟨⟨0, 1, 2, 0⟩, 100, 101⟩, ⟨⟨0, 2, 1, 0⟩, 200, 201⟩, ⟨⟨0, 1, 2, 0⟩, 300, 301⟩]) 1 2 = 2 :=
  ⟨rfl, rfl, by decide, by decide, by decide, by decide⟩

/-- C2: for every store and every well-formed like `A → B`, if the store with the like
persisted holds no `Like(B → A)`, then `likeUser` answers 200 with status
"like registered", the `Match` rows are what they were before the call, and the only
change of the store is the persisted like. -/
theorem no_premature_match {F : Type} (db : DB F) (like : Like) (now matchNow : Nat)
    (h : ¬ hasLike (db.createLike { like with CreatedAt := now }) like.LikedUserID
      like.UserID) :
    (likeUser db (.ok like) now matchNow).1 = .likeRegistered ∧
    (likeUser db (.ok like) now matchNow).1.status = some "like registered" ∧
    (likeUser db (.ok like) now matchNow).1.code = 200 ∧
    (likeUser db (.ok like) now matchNow).2.matchRows = db.matchRows ∧
    (likeUser db (.ok like) now matchNow).2 = db.createLike { like with CreatedAt := now } := by
  rw [likeUser_ok, if_neg h]
  exact ⟨rfl, rfl, rfl, matchRows_createLike _ _, rfl⟩

/-- Witness of C2: Alice likes Bob on the seeded database. -/
theorem no_premature_match_witness :
    ¬ hasLike (seedDB.createLike ⟨0, 1, 2, 100⟩) 2 1 ∧
    (likeUser seedDB (.ok ⟨0, 1, 2, 0⟩) 100 101).1 = .likeRegistered :=
  ⟨by decide, (no_premature_match seedDB ⟨0, 1, 2, 0⟩ 100 101 (by decide)).1⟩

/-- C3: for every store and every well-formed like `A → B`, if the store with the like
persisted holds a `Like(B → A)`, then `likeUser` adds exactly one `Match` row, with
`user_id = A` and `matched_user_id = B`, and answers 200 with status "match found" and
the pair `(A, B)`. -/
theorem match_on_reciprocity {F : Type} (db : DB F) (like : Like) (now matchNow : Nat)
    (h : hasLike (db.createLike { like with CreatedAt := now }) like.LikedUserID
      like.UserID) :
    (likeUser db (.ok like) now matchNow).1 = .matchFound like.UserID like.LikedUserID ∧
    (likeUser db (.ok like) now matchNow).1.status = some "match found" ∧
    (likeUser db (.ok like) now matchNow).1.code = 200 ∧
    (likeUser db (.ok like) now matchNow).2.matchRows =
      db.matchRows ++ [⟨db.matchesAutoInc, like.UserID, like.LikedUserID, matchNow⟩] := by
  rw [likeUser_ok, if_pos h]
  refine ⟨rfl, rfl, rfl, ?_⟩
  simp only [createMatch, matchRows_createLike, matchesAutoInc_createLike]

/-- Witness of C3: Bob likes Alice after Alice liked Bob. -/
theorem match_on_reciprocity_witness :
    hasLike ((runLikes seedDB [⟨⟨0, 1, 2, 0⟩, 100, 101⟩]).createLike ⟨0, 2, 1, 200⟩) 1 2 ∧
    (likeUser (runLikes seedDB [⟨⟨0, 1, 2, 0⟩, 100, 101⟩]) (.ok ⟨0, 2, 1, 0⟩) 200 201).1 =
      .matchFound 2 1 :=
  ⟨by decide,
    (match_on_reciprocity (runLikes seedDB [⟨⟨0, 1, 2, 0⟩, 100, 101⟩]) ⟨0, 2, 1, 0⟩ 200 201
      (by decide)).1⟩

/-- C10, as the code has it: for every store in which `A` is a stored user and the
primary key of the like is free, `likeUser` called with `user_id = A` and
`liked_user_id = A` persists `Like(A → A)`; that row satisfies the reciprocal query, so
the query finds a row (the persisted row itself when the store held no likes); a `Match`
row with `user_id = A` and `matched_user_id = A` is added and the answer is
"match found". -/
theorem self_like_matches {F : Type} (db : DB F) (A id : Int) (createdAt now matchNow : Nat)
    (hA : ∃ u ∈ db.userRows, u.ID = A)
    (hkey : ∀ l ∈ db.likeRows, l.ID ≠ db.likeKey ⟨id, A, A, createdAt⟩) :
    (likeUser db (.ok ⟨id, A, A, createdAt⟩) now matchNow).2.likeRows =
      db.likeRows ++ [⟨db.likeKey ⟨id, A, A, createdAt⟩, A, A, now⟩] ∧
    hasLike (db.createLike ⟨id, A, A, now⟩) A A ∧
    ((db.createLike ⟨id, A, A, now⟩).firstLike A A).isSome = true ∧
    (db.likeRows = [] →
      (db.createLike ⟨id, A, A, now⟩).firstLike A A =
        some ⟨db.likeKey ⟨id, A, A, createdAt⟩, A, A, now⟩) ∧
    (likeUser db (.ok ⟨id, A, A, createdAt⟩) now matchNow).2.matchRows =
      db.matchRows ++ [⟨db.matchesAutoInc, A, A, matchNow⟩] ∧
    (likeUser db (.ok ⟨id, A, A, createdAt⟩) now matchNow).1 = .matchFound A A ∧
    (likeUser db (.ok ⟨id, A, A, createdAt⟩) now matchNow).1.status =
      some "match found" := by
  have hins : db.likeInsertable ⟨id, A, A, now⟩ = true :=
    (likeInsertable_iff db ⟨id, A, A, now⟩).2 ⟨hA, hA, hkey⟩
  have hcreate : db.createLike ⟨id, A, A, now⟩ =
      { db with
        likeRows := db.likeRows ++ [⟨db.likeKey ⟨id, A, A, createdAt⟩, A, A, now⟩]
        likesAutoInc := max db.likesAutoInc (db.likeKey ⟨id, A, A, createdAt⟩ + 1) } := by
    unfold DB.createLike
    rw [if_pos hins]
    rfl
  have hrow : hasLike (db.createLike ⟨id, A, A, now⟩) A A := by
    rw [hcreate]
    exact ⟨⟨db.likeKey ⟨id, A, A, createdAt⟩, A, A, now⟩, by simp, rfl, rfl⟩
  have hself : hasLike (db.createLike { Like.mk id A A createdAt with CreatedAt := now })
      (Like.mk id A A createdAt).LikedUserID (Like.mk id A A createdAt).UserID := hrow
  have hsame : db.createLike { Like.mk id A A createdAt with CreatedAt := now } =
      db.createLike ⟨id, A, A, now⟩ := rfl
  refine ⟨?_, hrow, (firstLike_isSome_iff _ _ _).2 hrow, ?_, ?_, ?_, ?_⟩
  · rw [likeUser_ok, if_pos hself, hsame, hcreate]; rfl
  · intro he
    rw [hcreate]
    simp [DB.firstLike, he]
  · rw [likeUser_ok, if_pos hself, hsame, hcreate]; rfl
  · rw [likeUser_ok, if_pos hself]
  · rw [likeUser_ok, if_pos hself]; rfl

/-- Witness of C10: Alice likes herself on the seeded database. -/
theorem self_like_matches_witness :
    (∃ u ∈ seedDB.userRows, u.ID = 1) ∧
    (∀ l ∈ seedDB.likeRows, l.ID ≠ seedDB.likeKey ⟨0, 1, 1, 0⟩) ∧
    (likeUser seedDB (.ok ⟨0, 1, 1, 0⟩) 100 101).1 = .matchFound 1 1 ∧
    (likeUser seedDB (.ok ⟨0, 1, 1, 0⟩) 100 101).2.matchRows = [⟨1, 1, 1, 101⟩] :=
  ⟨⟨alice, by simp [seedDB, seedUsers], rfl⟩, by simp [seedDB],
    (self_like_matches seedDB 1 0 0 100 101 ⟨alice, by simp [seedDB, seedUsers], rfl⟩
      (by simp [seedDB])).2.2.2.2.2.1,
    by decide⟩

/-- C10 as stated fails: on the seeded database, which holds no likes, a self-like of
the id 99 that no user has is refused by the foreign keys of `likes`; nothing is
stored, the reciprocal query finds nothing, no `Match` row is added and the answer is
"like registered". -/
theorem self_like_of_unknown_user :
    (¬ ∃ u ∈ seedDB.userRows, u.ID = 99) ∧
    seedDB.likeRows = [] ∧
    (likeUser seedDB (.ok ⟨0, 99, 99, 0⟩) 100 101).1 = .likeRegistered ∧
    (likeUser seedDB (.ok ⟨0, 99, 99, 0⟩) 100 101).2.likeRows = [] ∧
    (likeUser seedDB (.ok ⟨0, 99, 99, 0⟩) 100 101).2.matchRows = [] := by
  refine ⟨?_, rfl, by decide, by decide, by decide⟩
  simp [seedDB, seedUsers, alice, bob, charlie, diana, ethan]

/-! ## Lemmas on the distance expression -/

lemma acosArg_symm (lat1 lon1 lat2 lon2 : ℝ) :
    acosArg lat1 lon1 lat2 lon2 = acosArg lat2 lon2 lat1 lon1 := by
  unfold acosArg
  have hcos : Real.cos (radians lon2 - radians lon1) = Real.cos (radians lon1 - radians lon2) := by
    rw [← Real.cos_neg, neg_sub]
  rw [hcos]
  ring

lemma acosArg_le_one (lat1 lon1 lat2 lon2 : ℝ) : acosArg lat1 lon1 lat2 lon2 ≤ 1 := by
  unfold acosArg
  have h1 := Real.cos_le_one (radians lat1 - radians lat2)
  have h2 := Real.neg_one_le_cos (radians lat1 + radians lat2)
  have h3 := Real.cos_le_one (radians lon2 - radians lon1)
  have h4 := Real.neg_one_le_cos (radians lon2 - radians lon1)
  rw [Real.cos_sub] at h1
  rw [Real.cos_add] at h2
  nlinarith [mul_nonneg (sub_nonneg.2 h1) (by linarith :
      (0 : ℝ) ≤ 1 + Real.cos (radians lon2 - radians lon1)),
    mul_nonneg (by linarith : (0 : ℝ) ≤ 1 + (Real.cos (radians lat1) * Real.cos (radians lat2) -
      Real.sin (radians lat1) * Real.sin (radians lat2)))
      (sub_nonneg.2 h3)]

lemma neg_one_le_acosArg (lat1 lon1 lat2 lon2 : ℝ) : -1 ≤ acosArg lat1 lon1 lat2 lon2 := by
  unfold acosArg
  have h1 := Real.neg_one_le_cos (radians lat1 - radians lat2)
  have h2 := Real.cos_le_one (radians lat1 + radians lat2)
  have h3 := Real.cos_le_one (radians lon2 - radians lon1)
  have h4 := Real.neg_one_le_cos (radians lon2 - radians lon1)
  rw [Real.cos_sub] at h1
  rw [Real.cos_add] at h2
  nlinarith [mul_nonneg (by linarith : (0 : ℝ) ≤ 1 + (Real.cos (radians lat1) *
      Real.cos (radians lat2) + Real.sin (radians lat1) * Real.sin (radians lat2)))
      (by linarith : (0 : ℝ) ≤ 1 + Real.cos (radians lon2 - radians lon1)),
    mul_nonneg (sub_nonneg.2 h2) (sub_nonneg.2 h3)]

lemma distanceExpr_eq_some (lat1 lon1 lat2 lon2 : ℝ) :
    distanceExpr lat1 lon1 lat2 lon2 = some (Distance lat1 lon1 lat2 lon2) := by
  unfold distanceExpr sqlAcos Distance
  rw [if_pos ⟨neg_one_le_acosArg _ _ _ _, acosArg_le_one _ _ _ _⟩]
  rfl

lemma Distance_le_pi (lat1 lon1 lat2 lon2 : ℝ) :
    Distance lat1 lon1 lat2 lon2 ≤ 3958.8 * Real.pi := by
  unfold Distance
  exact mul_le_mul_of_nonneg_left (Real.arccos_le_pi _) (by norm_num)

lemma pi_bound_lt_sentinel : (3958.8 : ℝ) * Real.pi < 99999 := by
  have h := Real.pi_lt_d2
  norm_num at h ⊢
  nlinarith

lemma Distance_le_sentinel (lat1 lon1 lat2 lon2 : ℝ) :
    Distance lat1 lon1 lat2 lon2 ≤ 99999 :=
  le_of_lt (lt_of_le_of_lt (Distance_le_pi _ _ _ _) pi_bound_lt_sentinel)

/-! ## Lemmas on the recommendation engine -/

lemma firstUser_some {F : Type} {db : DB F} {userID : Int} {r : User F}
    (h : db.firstUser userID = some r) : r ∈ db.userRows ∧ r.ID = userID := by
  unfold DB.firstUser at h
  refine ⟨List.mem_of_find?_eq_some h, ?_⟩
  have := List.find?_some h
  simpa using this

lemma firstUser_of_exists {F : Type} {db : DB F} {userID : Int}
    (h : ∃ u ∈ db.userRows, u.ID = userID) : ∃ r, db.firstUser userID = some r := by
  obtain ⟨u, hu, hid⟩ := h
  have hs : (db.firstUser userID).isSome = true := by
    unfold DB.firstUser
    rw [List.find?_isSome]
    exact ⟨u, hu, by simpa using hid⟩
  exact Option.isSome_iff_exists.1 hs

lemma firstUser_none_of_not_exists {F : Type} {db : DB F} {userID : Int}
    (h : ¬ ∃ u ∈ db.userRows, u.ID = userID) : db.firstUser userID = none := by
  cases hq : db.firstUser userID with
  | none => rfl
  | some r => exact absurd ⟨r, (firstUser_some hq).1, (firstUser_some hq).2⟩ h

/-- Rows scanned by the query when it succeeds: the stored users that pass the
`WHERE` conjuncts and whose distance is a value within the bound. -/
lemma mem_rawScan {F : Type} [LinearOrder F] (distance : F → F → F → F → Option F)
    (db : DB F) (lat1 lon1 : F) (cs : List (User F → Bool)) (maxDistance : F)
    (recs : List (User F)) (qf : Bool)
    (h : db.rawScan distance lat1 lon1 cs maxDistance qf = .ok recs) (u : User F) :
    u ∈ recs ↔ u ∈ db.userRows ∧ (∀ c ∈ cs, c u = true) ∧
      ∃ d, distance lat1 lon1 u.Latitude u.Longitude = some d ∧ d ≤ maxDistance := by
  unfold DB.rawScan at h
  cases qf with
  | true => simp at h
  | false =>
    simp only [Bool.false_eq_true, if_false, Except.ok.injEq] at h
    subst h
    simp only [List.mem_filter, List.all_eq_true]
    cases hd : distance lat1 lon1 u.Latitude u.Longitude with
    | none => simp
    | some d => simp [and_assoc]

lemma mem_distanceFilterAndScan {F : Type} [LinearOrderedRing F]
    (distance : F → F → F → F → Option F) (db : DB F) (r : User F) (p : Preferences F)
    (cs : List (User F → Bool)) (qf : Bool) (recs : List (User F))
    (h : distanceFilterAndScan distance db r p cs qf = .ok recs) (u : User F) :
    u ∈ recs ↔ u ∈ db.userRows ∧ (∀ c ∈ cs, c u = true) ∧ distanceOk distance r p u := by
  unfold distanceFilterAndScan at h
  simp only at h
  split at h
  · exact absurd h (by simp)
  · rename_i recs2 heq
    simp only [RecommendResponse.ok.injEq] at h
    subst h
    exact mem_rawScan distance db _ _ cs _ _ qf heq u

/-- Characterisation of a successful answer of `getRecommendedUsers`. -/
lemma mem_getRecommendedUsers {F : Type} [LinearOrderedRing F]
    (distance : F → F → F → F → Option F) (db : DB F) (userID : Int) (p : Preferences F)
    (qf : Bool) (recs : List (User F)) (r : User F)
    (hr : db.firstUser userID = some r)
    (hok : getRecommendedUsers distance db userID (.ok p) qf = .ok recs) (u : User F) :
    u ∈ recs ↔ u ∈ db.userRows ∧ Selected distance r p u := by
  unfold getRecommendedUsers at hok
  rw [hr] at hok
  simp only at hok
  unfold Selected genderOk dietOk ageOk
  split_ifs at hok <;>
    first
    | exact RecommendResponse.noConfusion hok
    | (rw [mem_distanceFilterAndScan distance db r p _ qf recs hok u]
       simp_all
       try tauto)

lemma getRecommendedUsers_invalid_age {F : Type} [LinearOrderedRing F]
    (distance : F → F → F → F → Option F) (db : DB F) (userID : Int) (p : Preferences F)
    (qf : Bool) (r : User F) (hr : db.firstUser userID = some r)
    (hmin : 0 < p.AgeRange.Min) (hmax : 0 < p.AgeRange.Max)
    (h : p.AgeRange.Max < p.AgeRange.Min) :
    getRecommendedUsers distance db userID (.ok p) qf = .error 400 "Invalid age range" := by
  unfold getRecommendedUsers
  rw [hr]
  simp [hmin, hmax, h]

lemma effectiveMaxDistance_of_nonpos {F : Type} [LinearOrderedRing F] (p : Preferences F)
    (h : p.MaxDistance ≤ 0) : effectiveMaxDistance p = 99999 := by
  unfold effectiveMaxDistance
  rw [if_pos h]

lemma distanceOk_real_of_nonpos (r : User ℝ) (p : Preferences ℝ) (u : User ℝ)
    (h : p.MaxDistance ≤ 0) : distanceOk distanceExpr r p u := by
  refine ⟨_, distanceExpr_eq_some _ _ _ _, ?_⟩
  rw [effectiveMaxDistance_of_nonpos p h]
  exact Distance_le_sentinel _ _ _ _

/-! ## Theorems on the recommendation engine -/

/-- C4, as the code has it: when `getRecommendedUsers` succeeds, no returned candidate
has a gender different from a supplied (non-empty) `looking_for_gender`, a diet type
different from a supplied `looking_for_diet_type`, or, when both age bounds are positive,
an age below `min` or above `max`; and an absent filter (empty gender, empty diet type,
an age range with a bound that is not positive) excludes no stored user who passes the
other conditions. -/
theorem preference_filter_correct {F : Type} [LinearOrderedRing F]
    (distance : F → F → F → F → Option F) (db : DB F) (userID : Int) (p : Preferences F)
    (qf : Bool) (recs : List (User F)) (r : User F)
    (hr : db.firstUser userID = some r)
    (hok : getRecommendedUsers distance db userID (.ok p) qf = .ok recs) :
    (∀ u ∈ recs,
      (p.LookingForGender ≠ "" → u.Gender = p.LookingForGender) ∧
      (p.LookingForDietType ≠ "" → u.DietType = p.LookingForDietType) ∧
      (0 < p.AgeRange.Min → 0 < p.AgeRange.Max →
        p.AgeRange.Min ≤ u.Age ∧ u.Age ≤ p.AgeRange.Max)) ∧
    (p.LookingForGender = "" → ∀ u ∈ db.userRows, u.ID ≠ r.ID → dietOk p u → ageOk p u →
      distanceOk distance r p u → u ∈ recs) ∧
    (p.LookingForDietType = "" → ∀ u ∈ db.userRows, u.ID ≠ r.ID → genderOk p u →
      ageOk p u → distanceOk distance r p u → u ∈ recs) ∧
    ((p.AgeRange.Min ≤ 0 ∨ p.AgeRange.Max ≤ 0) → ∀ u ∈ db.userRows, u.ID ≠ r.ID →
      genderOk p u → dietOk p u → distanceOk distance r p u → u ∈ recs) := by
  have hmem := mem_getRecommendedUsers distance db userID p qf recs r hr hok
  refine ⟨?_, ?_, ?_, ?_⟩
  · intro u hu
    obtain ⟨_, _, hg, hd, ha, _⟩ := (hmem u).1 hu
    refine ⟨fun hne => hg.resolve_left hne, fun hne => hd.resolve_left hne, ?_⟩
    intro hmin hmax
    exact ha.resolve_left (fun hh => hh ⟨hmin, hmax⟩)
  · intro hg u hu hid hd ha hdist
    exact (hmem u).2 ⟨hu, hid, Or.inl hg, hd, ha, hdist⟩
  · intro hd u hu hid hg ha hdist
    exact (hmem u).2 ⟨hu, hid, hg, Or.inl hd, ha, hdist⟩
  · intro hage u hu hid hg hd hdist
    refine (hmem u).2 ⟨hu, hid, hg, hd, Or.inl ?_, hdist⟩
    rintro ⟨h1, h2⟩
    rcases hage with h | h <;> omega

/-- Witness of C4: Bob asks the seeded database for vegan women. -/
theorem preference_filter_correct_witness :
    seedDB.firstUser 2 = some bob ∧
    getRecommendedUsers distanceExpr seedDB 2 (.ok ⟨"female", "vegan", ⟨0, 0⟩, 0⟩) false =
      .ok [alice, diana] ∧
    ∀ u ∈ [alice, diana],
      (("female" : String) ≠ "" → u.Gender = "female") ∧
      (("vegan" : String) ≠ "" → u.DietType = "vegan") ∧
      ((0 : Int) < 0 → (0 : Int) < 0 → 0 ≤ u.Age ∧ u.Age ≤ 0) :=
  ⟨by simp [DB.firstUser, seedDB, seedUsers, alice, bob],
    by simp [getRecommendedUsers, DB.firstUser, seedDB, seedUsers, alice, bob, charlie, diana,
      ethan, distanceFilterAndScan, DB.rawScan, distanceExpr_eq_some, Distance_le_sentinel],
    (preference_filter_correct distanceExpr seedDB 2 ⟨"female", "vegan", ⟨0, 0⟩, 0⟩ false
      [alice, diana] bob
      (by simp [DB.firstUser, seedDB, seedUsers, alice, bob])
      (by simp [getRecommendedUsers, DB.firstUser, seedDB, seedUsers, alice, bob, charlie,
        diana, ethan, distanceFilterAndScan, DB.rawScan, distanceExpr_eq_some,
        Distance_le_sentinel])).1⟩

/-- C4 as stated fails: Alice asks the seeded database with `age_range.min = 30` supplied
and `max` absent; the age filter is not applied and Charlie, aged 22, is returned. -/
theorem supplied_min_alone_not_enforced :
    getRecommendedUsers distanceExpr seedDB 1 (.ok ⟨"", "", ⟨30, 0⟩, 0⟩) false =
      .ok [bob, charlie, diana, ethan] ∧
    charlie.Age = 22 ∧ charlie.Age < 30 := by
  refine ⟨?_, rfl, by simp [charlie]⟩
  simp [getRecommendedUsers, DB.firstUser, seedDB, seedUsers, alice, bob, charlie, diana, ethan,
    distanceFilterAndScan, DB.rawScan, distanceExpr_eq_some, Distance_le_sentinel]

/-- C5, as the code has it: for every store in which the requester exists and every
preferences whose `age_range.min` and `age_range.max` are both positive with
`min > max`, `getRecommendedUsers` answers 400 "Invalid age range" and returns no
recommendation list. -/
theorem invalid_age_range_rejected {F : Type} [LinearOrderedRing F]
    (distance : F → F → F → F → Option F) (db : DB F) (userID : Int) (p : Preferences F)
    (qf : Bool) (hex : ∃ u ∈ db.userRows, u.ID = userID)
    (hmin : 0 < p.AgeRange.Min) (hmax : 0 < p.AgeRange.Max)
    (h : p.AgeRange.Min > p.AgeRange.Max) :
    getRecommendedUsers distance db userID (.ok p) qf = .error 400 "Invalid age range" ∧
    ∀ recs, getRecommendedUsers distance db userID (.ok p) qf ≠ .ok recs := by
  obtain ⟨r, hr⟩ := firstUser_of_exists hex
  have hres := getRecommendedUsers_invalid_age distance db userID p qf r hr hmin hmax h
  refine ⟨hres, fun recs hrecs => ?_⟩
  rw [hres] at hrecs
  exact RecommendResponse.noConfusion hrecs

/-- Witness of C5: Alice asks the seeded database with the age range 35 to 20. -/
theorem invalid_age_range_rejected_witness :
    (∃ u ∈ seedDB.userRows, u.ID = 1) ∧
    getRecommendedUsers distanceExpr seedDB 1 (.ok ⟨"", "", ⟨35, 20⟩, 0⟩) false =
      .error 400 "Invalid age range" :=
  ⟨⟨alice, by simp [seedDB, seedUsers], rfl⟩,
    (invalid_age_range_rejected distanceExpr seedDB 1 ⟨"", "", ⟨35, 20⟩, 0⟩ false
      ⟨alice, by simp [seedDB, seedUsers], rfl⟩ (by decide) (by decide) (by decide)).1⟩

/-- C5 as stated fails: with `age_range.min = 5` and `age_range.max = -3`, both non-zero
and `min > max`, the guard `Min > 0 && Max > 0` is false, no validation runs and the
answer is the list of all other users. -/
theorem nonzero_age_range_not_rejected :
    (5 : Int) ≠ 0 ∧ (-3 : Int) ≠ 0 ∧ (5 : Int) > -3 ∧
    getRecommendedUsers distanceExpr seedDB 1 (.ok ⟨"", "", ⟨5, -3⟩, 0⟩) false =
      .ok [bob, charlie, diana, ethan] := by
  refine ⟨by decide, by decide, by decide, ?_⟩
  simp [getRecommendedUsers, DB.firstUser, seedDB, seedUsers, alice, bob, charlie, diana, ethan,
    distanceFilterAndScan, DB.rawScan, distanceExpr_eq_some, Distance_le_sentinel]

/-- C6, as the code has it: called with `age_range` 35 to 20, `getRecommendedUsers`
answers 400 "Invalid age range" for every store in which the requester id exists,
whatever the other preferences, the other rows and the fate of the query, and
404 "User not found" when the requester id is not in the store: the requester is
looked up before the age range is validated. -/
theorem age_range_checked_after_lookup {F : Type} [LinearOrderedRing F]
    (distance : F → F → F → F → Option F) (db : DB F) (userID : Int)
    (gender diet : String) (maxDistance : F) (qf : Bool) :
    getRecommendedUsers distance db userID (.ok ⟨gender, diet, ⟨35, 20⟩, maxDistance⟩) qf =
      if ∃ u ∈ db.userRows, u.ID = userID then .error 400 "Invalid age range"
      else .error 404 "User not found" := by
  by_cases hex : ∃ u ∈ db.userRows, u.ID = userID
  · rw [if_pos hex]
    obtain ⟨r, hr⟩ := firstUser_of_exists hex
    exact getRecommendedUsers_invalid_age distance db userID _ qf r hr
      (show (0 : Int) < 35 by decide) (show (0 : Int) < 20 by decide)
      (show (20 : Int) < 35 by decide)
  · rw [if_neg hex]
    unfold getRecommendedUsers
    rw [firstUser_none_of_not_exists hex]

/-- C6 as stated fails: with the age range 35 to 20 and a requester id that is not in
the seeded database the answer is 404 "User not found", not 400. -/
theorem unknown_requester_not_found_first :
    (¬ ∃ u ∈ seedDB.userRows, u.ID = 99) ∧
    getRecommendedUsers distanceExpr seedDB 99 (.ok ⟨"", "", ⟨35, 20⟩, 0⟩) false =
      .error 404 "User not found" := by
  constructor
  · simp [seedDB, seedUsers, alice, bob, charlie, diana, ethan]
  · simp [getRecommendedUsers, DB.firstUser, seedDB, seedUsers, alice, bob, charlie, diana,
      ethan]

/-- C7: when `getRecommendedUsers` succeeds for the loaded requester `r`, a stored user
is in the result if and only if it is selected by the specification's predicate (not the
requester, gender, diet type, age range when both bounds are positive, distance within
the effective max distance); every returned row is a stored user; the requester is not
in its own result; every returned row has a distance within the effective max
distance. -/
theorem recommend_exactly_selected {F : Type} [LinearOrderedRing F]
    (distance : F → F → F → F → Option F) (db : DB F) (userID : Int) (p : Preferences F)
    (qf : Bool) (recs : List (User F)) (r : User F)
    (hr : db.firstUser userID = some r)
    (hok : getRecommendedUsers distance db userID (.ok p) qf = .ok recs) :
    (∀ u ∈ db.userRows, (u ∈ recs ↔
      u.ID ≠ r.ID ∧
      (p.LookingForGender = "" ∨ u.Gender = p.LookingForGender) ∧
      (p.LookingForDietType = "" ∨ u.DietType = p.LookingForDietType) ∧
      (¬ (0 < p.AgeRange.Min ∧ 0 < p.AgeRange.Max) ∨
        (p.AgeRange.Min ≤ u.Age ∧ u.Age ≤ p.AgeRange.Max)) ∧
      ∃ d, distance r.Latitude r.Longitude u.Latitude u.Longitude = some d ∧
        d ≤ (if p.MaxDistance > 0 then p.MaxDistance else 99999))) ∧
    (∀ u ∈ db.userRows, (u ∈ recs ↔ Selected distance r p u)) ∧
    (∀ u ∈ recs, u ∈ db.userRows) ∧
    r ∉ recs ∧
    (∀ u ∈ recs, u.ID ≠ userID) ∧
    (∀ u ∈ recs, ∃ d, distance r.Latitude r.Longitude u.Latitude u.Longitude = some d ∧
      d ≤ effectiveMaxDistance p) := by
  have hmem := mem_getRecommendedUsers distance db userID p qf recs r hr hok
  have heff : (if p.MaxDistance > 0 then p.MaxDistance else 99999) = effectiveMaxDistance p := by
    unfold effectiveMaxDistance
    by_cases h : p.MaxDistance ≤ 0
    · rw [if_pos h, if_neg (not_lt.2 h)]
    · rw [if_neg h, if_pos (not_le.1 h)]
  refine ⟨?_, ?_, ?_, ?_, ?_, ?_⟩
  · intro u hu
    rw [hmem u, heff]
    unfold Selected genderOk dietOk ageOk distanceOk
    exact ⟨fun h => h.2, fun h => ⟨hu, h⟩⟩
  · intro u hu
    rw [hmem u]
    exact ⟨fun h => h.2, fun h => ⟨hu, h⟩⟩
  · intro u hu
    exact ((hmem u).1 hu).1
  · intro hmemr
    exact ((hmem r).1 hmemr).2.1 rfl
  · intro u hu
    have := ((hmem u).1 hu).2.1
    rw [(firstUser_some hr).2] at this
    exact this
  · intro u hu
    exact ((hmem u).1 hu).2.2.2.2.2

/-- Witness of C7: Alice asks the seeded database for men aged 28 to 32 and gets Bob. -/
theorem recommend_exactly_selected_witness :
    seedDB.firstUser 1 = some alice ∧
    getRecommendedUsers distanceExpr seedDB 1 (.ok ⟨"male", "", ⟨28, 32⟩, 0⟩) false =
      .ok [bob] ∧
    alice ∉ [bob] :=
  ⟨by simp [DB.firstUser, seedDB, seedUsers, alice],
    by simp [getRecommendedUsers, DB.firstUser, seedDB, seedUsers, alice, bob, charlie, diana,
      ethan, distanceFilterAndScan, DB.rawScan, distanceExpr_eq_some, Distance_le_sentinel],
    (recommend_exactly_selected distanceExpr seedDB 1 ⟨"male", "", ⟨28, 32⟩, 0⟩ false [bob]
      alice
      (by simp [DB.firstUser, seedDB, seedUsers, alice])
      (by simp [getRecommendedUsers, DB.firstUser, seedDB, seedUsers, alice, bob, charlie,
        diana, ethan, distanceFilterAndScan, DB.rawScan, distanceExpr_eq_some,
        Distance_le_sentinel])).2.2.2.1⟩

/-- C8: read over the real numbers, the distance column is a value (never `NULL`) that
is at most `3958.8 * π`, which is below 99999; so when `max_distance ≤ 0` the effective
max distance is the sentinel 99999, every candidate passes the distance predicate, and
a successful `getRecommendedUsers` returns exactly the other stored users that pass the
gender, diet and age conjuncts. -/
theorem sentinel_excludes_no_candidate (db : DB ℝ) (userID : Int) (p : Preferences ℝ)
    (qf : Bool) (recs : List (User ℝ)) (r : User ℝ)
    (hmax : p.MaxDistance ≤ 0)
    (hr : db.firstUser userID = some r)
    (hok : getRecommendedUsers distanceExpr db userID (.ok p) qf = .ok recs) :
    (∀ lat1 lon1 lat2 lon2 : ℝ,
      distanceExpr lat1 lon1 lat2 lon2 = some (Distance lat1 lon1 lat2 lon2) ∧
      Distance lat1 lon1 lat2 lon2 ≤ 3958.8 * Real.pi) ∧
    (3958.8 : ℝ) * Real.pi < 99999 ∧
    effectiveMaxDistance p = 99999 ∧
    (∀ u : User ℝ, distanceOk distanceExpr r p u) ∧
    (∀ u ∈ db.userRows, (u ∈ recs ↔ u.ID ≠ r.ID ∧ genderOk p u ∧ dietOk p u ∧ ageOk p u)) := by
  have hmem := mem_getRecommendedUsers distanceExpr db userID p qf recs r hr hok
  refine ⟨fun a b c d => ⟨distanceExpr_eq_some a b c d, Distance_le_pi a b c d⟩,
    pi_bound_lt_sentinel, effectiveMaxDistance_of_nonpos p hmax,
    fun u => distanceOk_real_of_nonpos r p u hmax, ?_⟩
  intro u hu
  rw [hmem u]
  constructor
  · rintro ⟨_, hid, hg, hd, ha, _⟩
    exact ⟨hid, hg, hd, ha⟩
  · rintro ⟨hid, hg, hd, ha⟩
    exact ⟨hu, hid, hg, hd, ha, distanceOk_real_of_nonpos r p u hmax⟩

/-- Witness of C8: Ethan, in Tokyo, asks the seeded database without a max distance and
gets the four users around New York. -/
theorem sentinel_excludes_no_candidate_witness :
    (0 : ℝ) ≤ 0 ∧
    seedDB.firstUser 5 = some ethan ∧
    getRecommendedUsers distanceExpr seedDB 5 (.ok ⟨"", "", ⟨0, 0⟩, 0⟩) false =
      .ok [alice, bob, charlie, diana] ∧
    effectiveMaxDistance (⟨"", "", ⟨0, 0⟩, 0⟩ : Preferences ℝ) = 99999 :=
  ⟨le_refl 0,
    by simp [DB.firstUser, seedDB, seedUsers, alice, bob, charlie, diana, ethan],
    by simp [getRecommendedUsers, DB.firstUser, seedDB, seedUsers, alice, bob, charlie, diana,
      ethan, distanceFilterAndScan, DB.rawScan, distanceExpr_eq_some, Distance_le_sentinel],
    (sentinel_excludes_no_candidate seedDB 5 ⟨"", "", ⟨0, 0⟩, 0⟩ false
      [alice, bob, charlie, diana] ethan (le_refl 0)
      (by simp [DB.firstUser, seedDB, seedUsers, alice, bob, charlie, diana, ethan])
      (by simp [getRecommendedUsers, DB.firstUser, seedDB, seedUsers, alice, bob, charlie,
        diana, ethan, distanceFilterAndScan, DB.rawScan, distanceExpr_eq_some,
        Distance_le_sentinel])).2.2.1⟩

/-- C9: read over the real numbers, the distance of the recommendation query is
symmetric in the two coordinate pairs, as a real number and as the value the query
computes. -/
theorem distance_symmetric (lat1 lon1 lat2 lon2 : ℝ) :
    Distance lat1 lon1 lat2 lon2 = Distance lat2 lon2 lat1 lon1 ∧
    Distance lat1 lon1 lat2 lon2 =
      3958.8 * Real.arccos
        (Real.cos (radians lat1) * Real.cos (radians lat2) *
            Real.cos (radians lon2 - radians lon1) +
          Real.sin (radians lat1) * Real.sin (radians lat2)) ∧
    distanceExpr lat1 lon1 lat2 lon2 = distanceExpr lat2 lon2 lat1 lon1 := by
  have h : Distance lat1 lon1 lat2 lon2 = Distance lat2 lon2 lat1 lon1 := by
    unfold Distance
    rw [acosArg_symm]
  refine ⟨h, rfl, ?_⟩
  rw [distanceExpr_eq_some, distanceExpr_eq_some, h]

end TaskUsers
